import Mathlib

/-!
Shallow embedding of the proof-type registry from abi/sector.go of
go-state-types, together with proofs of the registry's specified
properties: the bijectivity of the seal/PoSt tables, size consistency,
closed-world lookup failures, and the behaviour of the size abbreviator.
-/

/-- SectorSize indicates one of a set of possible sizes in the network.
It is a uint64 in the source; every value the code produces fits in 64 bits. -/
abbrev SectorSize := Nat

/-- RegisteredSealProof is an int64 enumeration of seal proof types. -/
abbrev RegisteredSealProof := Int

/-- RegisteredPoStProof is an int64 enumeration of PoSt proof types. -/
abbrev RegisteredPoStProof := Int

abbrev RegisteredSealProof_StackedDrg2KiBV2 : RegisteredSealProof := 0

abbrev RegisteredSealProof_StackedDrg8MiBV2 : RegisteredSealProof := 1

abbrev RegisteredSealProof_StackedDrg512MiBV2 : RegisteredSealProof := 2

abbrev RegisteredSealProof_StackedDrg32GiBV2 : RegisteredSealProof := 3

abbrev RegisteredSealProof_StackedDrg64GiBV2 : RegisteredSealProof := 4

abbrev RegisteredPoStProof_StackedDrgWinning2KiBV2 : RegisteredPoStProof := 0

abbrev RegisteredPoStProof_StackedDrgWinning8MiBV2 : RegisteredPoStProof := 1

abbrev RegisteredPoStProof_StackedDrgWinning512MiBV2 : RegisteredPoStProof := 2

abbrev RegisteredPoStProof_StackedDrgWinning32GiBV2 : RegisteredPoStProof := 3

abbrev RegisteredPoStProof_StackedDrgWinning64GiBV2 : RegisteredPoStProof := 4

abbrev RegisteredPoStProof_StackedDrgWindow2KiBV2 : RegisteredPoStProof := 5

abbrev RegisteredPoStProof_StackedDrgWindow8MiBV2 : RegisteredPoStProof := 6

abbrev RegisteredPoStProof_StackedDrgWindow512MiBV2 : RegisteredPoStProof := 7

abbrev RegisteredPoStProof_StackedDrgWindow32GiBV2 : RegisteredPoStProof := 8

abbrev RegisteredPoStProof_StackedDrgWindow64GiBV2 : RegisteredPoStProof := 9

/-- Metadata about a seal proof type. -/
structure SealProofInfo where
  SectorSize : SectorSize
  WinningPoStProof : RegisteredPoStProof
  WindowPoStProof : RegisteredPoStProof
deriving DecidableEq

/-- The map literal SealProofInfos, read as the finite partial function the
Go map denotes: each listed key maps to its SealProofInfo, every other key
is absent. -/
def SealProofInfos (p : RegisteredSealProof) : Option SealProofInfo :=
  if p = RegisteredSealProof_StackedDrg2KiBV2 then
    some { SectorSize := 2 <<< 10,
           WinningPoStProof := RegisteredPoStProof_StackedDrgWinning2KiBV2,
           WindowPoStProof := RegisteredPoStProof_StackedDrgWindow2KiBV2 }
  else if p = RegisteredSealProof_StackedDrg8MiBV2 then
    some { SectorSize := 8 <<< 20,
           WinningPoStProof := RegisteredPoStProof_StackedDrgWinning8MiBV2,
           WindowPoStProof := RegisteredPoStProof_StackedDrgWindow8MiBV2 }
  else if p = RegisteredSealProof_StackedDrg512MiBV2 then
    some { SectorSize := 512 <<< 20,
           WinningPoStProof := RegisteredPoStProof_StackedDrgWinning512MiBV2,
           WindowPoStProof := RegisteredPoStProof_StackedDrgWindow512MiBV2 }
  else if p = RegisteredSealProof_StackedDrg32GiBV2 then
    some { SectorSize := 32 <<< 30,
           WinningPoStProof := RegisteredPoStProof_StackedDrgWinning32GiBV2,
           WindowPoStProof := RegisteredPoStProof_StackedDrgWindow32GiBV2 }
  else if p = RegisteredSealProof_StackedDrg64GiBV2 then
    some { SectorSize := 64 <<< 30,
           WinningPoStProof := RegisteredPoStProof_StackedDrgWinning64GiBV2,
           WindowPoStProof := RegisteredPoStProof_StackedDrgWindow64GiBV2 }
  else none

/-- The keys of the SealProofInfos map literal, in source order. -/
def sealProofKeys : List RegisteredSealProof :=
  [RegisteredSealProof_StackedDrg2KiBV2,
   RegisteredSealProof_StackedDrg8MiBV2,
   RegisteredSealProof_StackedDrg512MiBV2,
   RegisteredSealProof_StackedDrg32GiBV2,
   RegisteredSealProof_StackedDrg64GiBV2]

/-- Method SectorSize of RegisteredSealProof: look up the info and return its
sector size, or an unsupported-proof-type error when the key is absent. -/
def RegisteredSealProof.sectorSize (p : RegisteredSealProof) :
    Except String SectorSize :=
  match SealProofInfos p with
  | none => Except.error ("unsupported proof type: " ++ toString p)
  | some info => Except.ok info.SectorSize

/-- Method RegisteredWinningPoStProof of RegisteredSealProof: the
PoSt-specific proof corresponding to the receiving seal proof. -/
def RegisteredSealProof.registeredWinningPoStProof (p : RegisteredSealProof) :
    Except String RegisteredPoStProof :=
  match SealProofInfos p with
  | none => Except.error ("unsupported proof type: " ++ toString p)
  | some info => Except.ok info.WinningPoStProof

/-- Method RegisteredWindowPoStProof of RegisteredSealProof: the
PoSt-specific proof corresponding to the receiving seal proof. -/
def RegisteredSealProof.registeredWindowPoStProof (p : RegisteredSealProof) :
    Except String RegisteredPoStProof :=
  match SealProofInfos p with
  | none => Except.error ("unsupported proof type: " ++ toString p)
  | some info => Except.ok info.WindowPoStProof

/-- The map literal PoStSealProofTypes, read as the finite partial function
mapping PoSt proof types back to seal proof types; entries in source order. -/
def PoStSealProofTypes (p : RegisteredPoStProof) : Option RegisteredSealProof :=
  if p = RegisteredPoStProof_StackedDrgWinning2KiBV2 then
    some RegisteredSealProof_StackedDrg2KiBV2
  else if p = RegisteredPoStProof_StackedDrgWindow2KiBV2 then
    some RegisteredSealProof_StackedDrg2KiBV2
  else if p = RegisteredPoStProof_StackedDrgWinning8MiBV2 then
    some RegisteredSealProof_StackedDrg8MiBV2
  else if p = RegisteredPoStProof_StackedDrgWindow8MiBV2 then
    some RegisteredSealProof_StackedDrg8MiBV2
  else if p = RegisteredPoStProof_StackedDrgWinning512MiBV2 then
    some RegisteredSealProof_StackedDrg512MiBV2
  else if p = RegisteredPoStProof_StackedDrgWindow512MiBV2 then
    some RegisteredSealProof_StackedDrg512MiBV2
  else if p = RegisteredPoStProof_StackedDrgWinning32GiBV2 then
    some RegisteredSealProof_StackedDrg32GiBV2
  else if p = RegisteredPoStProof_StackedDrgWindow32GiBV2 then
    some RegisteredSealProof_StackedDrg32GiBV2
  else if p = RegisteredPoStProof_StackedDrgWinning64GiBV2 then
    some RegisteredSealProof_StackedDrg64GiBV2
  else if p = RegisteredPoStProof_StackedDrgWindow64GiBV2 then
    some RegisteredSealProof_StackedDrg64GiBV2
  else none

/-- The keys of the PoStSealProofTypes map literal, in source order. -/
def postProofKeys : List RegisteredPoStProof :=
  [RegisteredPoStProof_StackedDrgWinning2KiBV2,
   RegisteredPoStProof_StackedDrgWindow2KiBV2,
   RegisteredPoStProof_StackedDrgWinning8MiBV2,
   RegisteredPoStProof_StackedDrgWindow8MiBV2,
   RegisteredPoStProof_StackedDrgWinning512MiBV2,
   RegisteredPoStProof_StackedDrgWindow512MiBV2,
   RegisteredPoStProof_StackedDrgWinning32GiBV2,
   RegisteredPoStProof_StackedDrgWindow32GiBV2,
   RegisteredPoStProof_StackedDrgWinning64GiBV2,
   RegisteredPoStProof_StackedDrgWindow64GiBV2]

/-- Method RegisteredSealProof of RegisteredPoStProof: maps PoSt proof types
back to seal proof types via the reverse table. -/
def RegisteredPoStProof.registeredSealProof (p : RegisteredPoStProof) :
    Except String RegisteredSealProof :=
  match PoStSealProofTypes p with
  | none => Except.error ("unsupported PoSt proof type: " ++ toString p)
  | some sp => Except.ok sp

/-- Method SectorSize of RegisteredPoStProof: derive the seal proof, then
delegate; an error from the first hop is returned unchanged. -/
def RegisteredPoStProof.sectorSize (p : RegisteredPoStProof) :
    Except String SectorSize :=
  match RegisteredPoStProof.registeredSealProof p with
  | Except.error e => Except.error e
  | Except.ok sp => RegisteredSealProof.sectorSize sp

/-- The binary-prefix unit strings of ShortString. -/
def biUnits : List String := ["B", "KiB", "MiB", "GiB", "TiB", "PiB", "EiB"]

/-- The for-loop of ShortString: while the size is at least 1024 and the
unit index is below the last unit, divide by 1024 and bump the unit. The
bound on the unit index is carried as the remaining iteration budget
(budget = last unit index minus current unit index), which makes the
recursion structural while keeping the guard semantics of the source. -/
def shortStringLoop : Nat → Nat → Nat → Nat × Nat
  | 0, s, unit => (s, unit)
  | budget + 1, s, unit =>
    if 1024 ≤ s then shortStringLoop budget (s / 1024) (unit + 1)
    else (s, unit)

/-- The loop of ShortString started at a given size and unit index. -/
def shortStringAux (s unit : Nat) : Nat × Nat :=
  shortStringLoop (biUnits.length - 1 - unit) s unit

/-- Method ShortString of SectorSize: abbreviate the size as a human-scale
number, truncating unless the size is a power of 1024. -/
def SectorSize.shortString (s : SectorSize) : String :=
  let r := shortStringAux s 0
  toString r.1 ++ biUnits.getD r.2 ""

/-- The loop of ShortString raises the unit index by at most its iteration
budget. -/
lemma shortStringLoop_unit_le (budget : Nat) :
    ∀ s unit : Nat, (shortStringLoop budget s unit).2 ≤ unit + budget := by
  induction budget with
  | zero => intro s unit; exact Nat.le_refl unit
  | succ k ih =>
    intro s unit
    simp only [shortStringLoop]
    by_cases hs : 1024 ≤ s
    · rw [if_pos hs]
      exact le_trans (ih (s / 1024) (unit + 1)) (by omega)
    · rw [if_neg hs]
      exact Nat.le_add_right unit (k + 1)

/-- With at least 1024^budget bytes, the loop of ShortString spends its
whole iteration budget. -/
lemma shortStringLoop_unit_eq (budget : Nat) :
    ∀ s unit : Nat, 1024 ^ budget ≤ s →
      (shortStringLoop budget s unit).2 = unit + budget := by
  induction budget with
  | zero => intro s unit _; rfl
  | succ k ih =>
    intro s unit h
    have h1 : (1024 : Nat) ≤ s :=
      le_trans (Nat.le_self_pow (Nat.succ_ne_zero k) 1024) h
    simp only [shortStringLoop, if_pos h1]
    rw [ih (s / 1024) (unit + 1)]
    · omega
    · rw [Nat.le_div_iff_mul_le (by norm_num : (0 : Nat) < 1024)]
      calc (1024 : Nat) ^ k * 1024 = 1024 ^ (k + 1) := (pow_succ 1024 k).symm
        _ ≤ s := h

/-- A seal proof type with a SealProofInfos entry is one of the five listed
keys. -/
lemma seal_key_cases (s : RegisteredSealProof) (h : (SealProofInfos s).isSome) :
    s = 0 ∨ s = 1 ∨ s = 2 ∨ s = 3 ∨ s = 4 := by
  unfold SealProofInfos at h
  split_ifs at h with h0 h1 h2 h3 h4
  · exact Or.inl h0
  · exact Or.inr (Or.inl h1)
  · exact Or.inr (Or.inr (Or.inl h2))
  · exact Or.inr (Or.inr (Or.inr (Or.inl h3)))
  · exact Or.inr (Or.inr (Or.inr (Or.inr h4)))
  · simp at h

set_option maxHeartbeats 1600000 in
/-- A PoSt proof type with a PoStSealProofTypes entry is one of the ten
listed keys. -/
lemma post_key_cases (p : RegisteredPoStProof)
    (h : (PoStSealProofTypes p).isSome) :
    p = 0 ∨ p = 1 ∨ p = 2 ∨ p = 3 ∨ p = 4 ∨
    p = 5 ∨ p = 6 ∨ p = 7 ∨ p = 8 ∨ p = 9 := by
  unfold PoStSealProofTypes at h
  split_ifs at h with h0 h1 h2 h3 h4 h5 h6 h7 h8 h9
  · exact Or.inl h0
  · exact Or.inr (Or.inr (Or.inr (Or.inr (Or.inr (Or.inl h1)))))
  · exact Or.inr (Or.inl h2)
  · exact Or.inr (Or.inr (Or.inr (Or.inr (Or.inr (Or.inr (Or.inl h3))))))
  · exact Or.inr (Or.inr (Or.inl h4))
  · exact Or.inr (Or.inr (Or.inr (Or.inr (Or.inr (Or.inr (Or.inr
      (Or.inl h5)))))))
  · exact Or.inr (Or.inr (Or.inr (Or.inl h6)))
  · exact Or.inr (Or.inr (Or.inr (Or.inr (Or.inr (Or.inr (Or.inr (Or.inr
      (Or.inl h7))))))))
  · exact Or.inr (Or.inr (Or.inr (Or.inr (Or.inl h8))))
  · exact Or.inr (Or.inr (Or.inr (Or.inr (Or.inr (Or.inr (Or.inr (Or.inr
      (Or.inr h9))))))))
  · simp at h

/-- Claim C1: for every seal proof type with a SealProofInfos entry, the
reverse lookup of its winning PoSt proof returns it, and likewise for its
window PoSt proof. -/
theorem c1_post_seal_roundtrip (s : RegisteredSealProof)
    (h : (SealProofInfos s).isSome) :
    Except.bind (RegisteredSealProof.registeredWinningPoStProof s)
      RegisteredPoStProof.registeredSealProof = Except.ok s ∧
    Except.bind (RegisteredSealProof.registeredWindowPoStProof s)
      RegisteredPoStProof.registeredSealProof = Except.ok s := by
  rcases seal_key_cases s h with rfl | rfl | rfl | rfl | rfl <;> exact ⟨rfl, rfl⟩

/-- Witness for C1 at the 2 KiB seal proof type. -/
theorem c1_witness :
    (SealProofInfos 0).isSome = true ∧
    Except.bind (RegisteredSealProof.registeredWinningPoStProof 0)
      RegisteredPoStProof.registeredSealProof = Except.ok 0 :=
  ⟨rfl, (c1_post_seal_roundtrip 0 rfl).1⟩

/-- Claim C2: for every seal proof type with a SealProofInfos entry, the
PoSt sector size of its winning PoSt proof agrees with its own sector size,
and likewise for its window PoSt proof. -/
theorem c2_size_consistency (s : RegisteredSealProof)
    (h : (SealProofInfos s).isSome) :
    Except.bind (RegisteredSealProof.registeredWinningPoStProof s)
      RegisteredPoStProof.sectorSize = RegisteredSealProof.sectorSize s ∧
    Except.bind (RegisteredSealProof.registeredWindowPoStProof s)
      RegisteredPoStProof.sectorSize = RegisteredSealProof.sectorSize s := by
  rcases seal_key_cases s h with rfl | rfl | rfl | rfl | rfl <;> exact ⟨rfl, rfl⟩

/-- Witness for C2 at the 32 GiB seal proof type. -/
theorem c2_witness :
    (SealProofInfos 3).isSome = true ∧
    Except.bind (RegisteredSealProof.registeredWinningPoStProof 3)
      RegisteredPoStProof.sectorSize = RegisteredSealProof.sectorSize 3 :=
  ⟨rfl, (c2_size_consistency 3 rfl).1⟩

/-- Claim C3: every lookup fails exactly on inputs without a table entry,
with the unsupported-proof-type error for seal lookups and the
unsupported-PoSt-proof-type error for PoSt lookups; in particular the seal
identifier 5, one past the highest assigned one, has no entry. -/
theorem c3_closed_world :
    (∀ s : RegisteredSealProof, SealProofInfos s = none →
      RegisteredSealProof.sectorSize s =
        Except.error ("unsupported proof type: " ++ toString s) ∧
      RegisteredSealProof.registeredWinningPoStProof s =
        Except.error ("unsupported proof type: " ++ toString s) ∧
      RegisteredSealProof.registeredWindowPoStProof s =
        Except.error ("unsupported proof type: " ++ toString s)) ∧
    (∀ p : RegisteredPoStProof, PoStSealProofTypes p = none →
      RegisteredPoStProof.registeredSealProof p =
        Except.error ("unsupported PoSt proof type: " ++ toString p) ∧
      RegisteredPoStProof.sectorSize p =
        Except.error ("unsupported PoSt proof type: " ++ toString p)) ∧
    SealProofInfos 5 = none ∧
    (∀ s : RegisteredSealProof,
      (RegisteredSealProof.sectorSize s).isOk = (SealProofInfos s).isSome) ∧
    (∀ s : RegisteredSealProof,
      (RegisteredSealProof.registeredWinningPoStProof s).isOk =
        (SealProofInfos s).isSome) ∧
    (∀ s : RegisteredSealProof,
      (RegisteredSealProof.registeredWindowPoStProof s).isOk =
        (SealProofInfos s).isSome) ∧
    (∀ p : RegisteredPoStProof,
      (RegisteredPoStProof.registeredSealProof p).isOk =
        (PoStSealProofTypes p).isSome) ∧
    (∀ p : RegisteredPoStProof,
      (RegisteredPoStProof.sectorSize p).isOk =
        (PoStSealProofTypes p).isSome) := by
  refine ⟨?_, ?_, rfl, ?_, ?_, ?_, ?_, ?_⟩
  · intro s h
    refine ⟨?_, ?_, ?_⟩ <;>
      simp [RegisteredSealProof.sectorSize,
        RegisteredSealProof.registeredWinningPoStProof,
        RegisteredSealProof.registeredWindowPoStProof, h]
  · intro p h
    constructor <;>
      simp [RegisteredPoStProof.registeredSealProof,
        RegisteredPoStProof.sectorSize, h]
  · intro s
    rcases hE : SealProofInfos s with _ | info <;>
      (simp [RegisteredSealProof.sectorSize, hE]; rfl)
  · intro s
    rcases hE : SealProofInfos s with _ | info <;>
      (simp [RegisteredSealProof.registeredWinningPoStProof, hE]; rfl)
  · intro s
    rcases hE : SealProofInfos s with _ | info <;>
      (simp [RegisteredSealProof.registeredWindowPoStProof, hE]; rfl)
  · intro p
    rcases hE : PoStSealProofTypes p with _ | sp <;>
      (simp [RegisteredPoStProof.registeredSealProof, hE]; rfl)
  · intro p
    rcases hE : PoStSealProofTypes p with _ | sp
    · simp [RegisteredPoStProof.sectorSize,
        RegisteredPoStProof.registeredSealProof, hE]
      rfl
    · have hp := post_key_cases p (by rw [hE]; rfl)
      rcases hp with rfl|rfl|rfl|rfl|rfl|rfl|rfl|rfl|rfl|rfl <;>
        obtain rfl := Option.some.inj hE <;> rfl

/-- Witness for C3 at the unassigned seal identifier 5. -/
theorem c3_witness :
    SealProofInfos 5 = none ∧
    RegisteredSealProof.sectorSize 5 =
      Except.error ("unsupported proof type: " ++ toString (5 : Int)) :=
  ⟨rfl, (c3_closed_world.1 5 rfl).1⟩

/-- Claim C6: the PoSt SectorSize lookup is the composition of the reverse
lookup with the seal SectorSize lookup: it propagates the reverse lookup's
error unchanged, and otherwise delegates to the derived seal proof type. -/
theorem c6_sectorsize_is_composition :
    (∀ (p : RegisteredPoStProof) (e : String),
      RegisteredPoStProof.registeredSealProof p = Except.error e →
      RegisteredPoStProof.sectorSize p = Except.error e) ∧
    (∀ (p : RegisteredPoStProof) (sp : RegisteredSealProof),
      RegisteredPoStProof.registeredSealProof p = Except.ok sp →
      RegisteredPoStProof.sectorSize p = RegisteredSealProof.sectorSize sp) := by
  constructor <;>
    (intro p x h; unfold RegisteredPoStProof.sectorSize; rw [h])

/-- Witness for C6 at the unassigned PoSt identifier 99. -/
theorem c6_witness :
    RegisteredPoStProof.registeredSealProof 99 =
      Except.error ("unsupported PoSt proof type: " ++ toString (99 : Int)) ∧
    RegisteredPoStProof.sectorSize 99 =
      Except.error ("unsupported PoSt proof type: " ++ toString (99 : Int)) :=
  ⟨rfl, c6_sectorsize_is_composition.1 99 _ rfl⟩

/-- Claim C4: the literal reverse table agrees extensionally with the
inversion of the forward table: a PoSt proof type maps to a seal proof type
exactly when that seal proof type's entry lists it as winning or window
PoSt proof. -/
theorem c4_reverse_table_is_inverse :
    ∀ (p : RegisteredPoStProof) (s : RegisteredSealProof),
      PoStSealProofTypes p = some s ↔
        ∃ info, SealProofInfos s = some info ∧
          (info.WinningPoStProof = p ∨ info.WindowPoStProof = p) := by
  intro p s
  constructor
  · intro h
    rcases post_key_cases p (by rw [h]; rfl) with
        rfl|rfl|rfl|rfl|rfl|rfl|rfl|rfl|rfl|rfl <;>
      obtain rfl := Option.some.inj h <;>
      first
        | exact ⟨_, rfl, Or.inl rfl⟩
        | exact ⟨_, rfl, Or.inr rfl⟩
  · rintro ⟨info, hinfo, hor⟩
    rcases seal_key_cases s (by rw [hinfo]; rfl) with rfl|rfl|rfl|rfl|rfl <;>
      obtain rfl := Option.some.inj hinfo <;>
      rcases hor with rfl | rfl <;> rfl

/-- Witness for C4: the 2 KiB window PoSt identifier 5 maps back to seal
identifier 0, so the forward table lists 5 under key 0. -/
theorem c4_witness :
    ∃ info, SealProofInfos 0 = some info ∧
      (info.WinningPoStProof = 5 ∨ info.WindowPoStProof = 5) :=
  (c4_reverse_table_is_inverse 5 0).mp rfl

/-- Claim C5: distinct seal proof types with table entries never share a
PoSt proof identifier, in any combination of winning and window slots. -/
theorem c5_no_post_collision (s1 s2 : RegisteredSealProof)
    (i1 i2 : SealProofInfo) (hne : s1 ≠ s2)
    (h1 : SealProofInfos s1 = some i1) (h2 : SealProofInfos s2 = some i2) :
    i1.WinningPoStProof ≠ i2.WinningPoStProof ∧
    i1.WinningPoStProof ≠ i2.WindowPoStProof ∧
    i1.WindowPoStProof ≠ i2.WinningPoStProof ∧
    i1.WindowPoStProof ≠ i2.WindowPoStProof := by
  rcases seal_key_cases s1 (by rw [h1]; rfl) with rfl|rfl|rfl|rfl|rfl <;>
    rcases seal_key_cases s2 (by rw [h2]; rfl) with rfl|rfl|rfl|rfl|rfl <;>
    first
      | exact absurd rfl hne
      | (obtain rfl := Option.some.inj h1
         obtain rfl := Option.some.inj h2
         exact ⟨by decide, by decide, by decide, by decide⟩)

/-- Witness for C5 at the 2 KiB and 8 MiB seal proof types. -/
theorem c5_witness :
    ({ SectorSize := 2048, WinningPoStProof := 0, WindowPoStProof := 5 } :
        SealProofInfo).WinningPoStProof ≠
      ({ SectorSize := 8388608, WinningPoStProof := 1, WindowPoStProof := 6 } :
        SealProofInfo).WinningPoStProof :=
  (c5_no_post_collision 0 1 _ _ (by decide) rfl rfl).1

/-- Claim C8: the forward table has the five listed keys, the reverse table
has the ten listed keys (each list without duplicates), ten is twice five,
and every forward entry carries two distinct PoSt identifiers. -/
theorem c8_twice_as_many :
    (∀ s : RegisteredSealProof,
      (SealProofInfos s).isSome = true ↔ s ∈ sealProofKeys) ∧
    (∀ p : RegisteredPoStProof,
      (PoStSealProofTypes p).isSome = true ↔ p ∈ postProofKeys) ∧
    sealProofKeys.Nodup ∧ postProofKeys.Nodup ∧
    sealProofKeys.length = 5 ∧ postProofKeys.length = 10 ∧
    postProofKeys.length = 2 * sealProofKeys.length ∧
    (∀ (s : RegisteredSealProof) (info : SealProofInfo),
      SealProofInfos s = some info →
      info.WinningPoStProof ≠ info.WindowPoStProof) := by
  refine ⟨?_, ?_, by decide, by decide, rfl, rfl, rfl, ?_⟩
  · intro s
    constructor
    · intro h
      rcases seal_key_cases s h with rfl|rfl|rfl|rfl|rfl <;> decide
    · intro h
      simp [sealProofKeys] at h
      rcases h with rfl|rfl|rfl|rfl|rfl <;> rfl
  · intro p
    constructor
    · intro h
      rcases post_key_cases p h with
          rfl|rfl|rfl|rfl|rfl|rfl|rfl|rfl|rfl|rfl <;> decide
    · intro h
      simp [postProofKeys] at h
      rcases h with rfl|rfl|rfl|rfl|rfl|rfl|rfl|rfl|rfl|rfl <;> rfl
  · intro s info h
    rcases seal_key_cases s (by rw [h]; rfl) with rfl|rfl|rfl|rfl|rfl <;>
      obtain rfl := Option.some.inj h <;> decide

/-- Witness for C8: the 2 KiB entry has distinct winning and window PoSt
identifiers. -/
theorem c8_witness :
    ({ SectorSize := 2048, WinningPoStProof := 0, WindowPoStProof := 5 } :
        SealProofInfo).WinningPoStProof ≠
      ({ SectorSize := 2048, WinningPoStProof := 0, WindowPoStProof := 5 } :
        SealProofInfo).WindowPoStProof :=
  c8_twice_as_many.2.2.2.2.2.2.2 0 _ rfl

/-- Claim C7: ShortString repeatedly divides by 1024 with truncation until
the value is below 1024 or the last unit is reached (the stated loop
recurrence), and in particular renders 1024 as 1KiB, 0 as 0B and 1536 as
1KiB. -/
theorem c7_shortstring_divides :
    (∀ s unit : Nat, shortStringAux s unit =
      if 1024 ≤ s ∧ unit < biUnits.length - 1 then
        shortStringAux (s / 1024) (unit + 1)
      else (s, unit)) ∧
    SectorSize.shortString 1024 = "1KiB" ∧
    SectorSize.shortString 0 = "0B" ∧
    SectorSize.shortString 1536 = "1KiB" := by
  refine ⟨?_, rfl, rfl, rfl⟩
  intro s unit
  unfold shortStringAux
  have hlen : biUnits.length = 7 := rfl
  rcases Nat.lt_or_ge unit (biUnits.length - 1) with hu | hu
  · obtain ⟨k, hk⟩ : ∃ k, biUnits.length - 1 - unit = k + 1 :=
      ⟨biUnits.length - 1 - unit - 1, by omega⟩
    rw [hk]
    by_cases hs : 1024 ≤ s
    · rw [if_pos ⟨hs, hu⟩]
      simp only [shortStringLoop]
      rw [if_pos hs]
      have hk2 : k = biUnits.length - 1 - (unit + 1) := by omega
      rw [hk2]
    · rw [if_neg (fun hc => hs hc.1)]
      simp only [shortStringLoop]
      rw [if_neg hs]
  · have hk : biUnits.length - 1 - unit = 0 := by omega
    rw [hk]
    rw [if_neg (by omega)]
    rfl

/-- Claim C10: the unit index of the ShortString loop always stays below
the length of the unit list, sizes of 2^60 bytes and above are rendered
with the EiB unit, and ShortString is defined at 2^60 and at the maximum
uint64 value. -/
theorem c10_shortstring_safe :
    (∀ s : Nat, (shortStringAux s 0).2 < biUnits.length) ∧
    (∀ s : Nat, 2 ^ 60 ≤ s →
      biUnits.getD (shortStringAux s 0).2 "" = "EiB") ∧
    SectorSize.shortString 1152921504606846976 = "1EiB" ∧
    SectorSize.shortString 18446744073709551615 = "15EiB" := by
  refine ⟨?_, ?_, rfl, rfl⟩
  · intro s
    have h := shortStringLoop_unit_le (biUnits.length - 1 - 0) s 0
    unfold shortStringAux
    have hlen : biUnits.length = 7 := rfl
    omega
  · intro s h
    have hp : (1024 : Nat) ^ 6 ≤ s := by
      have h60 : (2 : Nat) ^ 60 = 1152921504606846976 := by norm_num
      have hp6 : (1024 : Nat) ^ 6 = 1152921504606846976 := by norm_num
      rw [hp6, ← h60]
      exact h
    have he := shortStringLoop_unit_eq 6 s 0 hp
    unfold shortStringAux
    rw [show biUnits.length - 1 - 0 = 6 from rfl, he]
    rfl

/-- Witness for C10 at exactly 2^60 bytes. -/
theorem c10_witness :
    (2 : Nat) ^ 60 ≤ 1152921504606846976 ∧
    biUnits.getD (shortStringAux 1152921504606846976 0).2 "" = "EiB" :=
  ⟨by norm_num, c10_shortstring_safe.2.1 1152921504606846976 (by norm_num)⟩

/-- Claim C9: for the 2 KiB seal proof variant, SectorSize returns 2048,
RegisteredWinningPoStProof returns PoSt identifier 0, the reverse lookup of
that identifier returns seal identifier 0, and the PoSt SectorSize of the
2 KiB window identifier 5 is again 2048. -/
theorem c9_2kib_scenario :
    RegisteredSealProof.sectorSize RegisteredSealProof_StackedDrg2KiBV2 =
      Except.ok 2048 ∧
    RegisteredSealProof.registeredWinningPoStProof
      RegisteredSealProof_StackedDrg2KiBV2 =
      Except.ok RegisteredPoStProof_StackedDrgWinning2KiBV2 ∧
    RegisteredPoStProof.registeredSealProof
      RegisteredPoStProof_StackedDrgWinning2KiBV2 =
      Except.ok RegisteredSealProof_StackedDrg2KiBV2 ∧
    RegisteredPoStProof.sectorSize RegisteredPoStProof_StackedDrgWindow2KiBV2 =
      Except.ok 2048 :=
  ⟨rfl, rfl, rfl, rfl⟩
